import Mathlib

/-!
Verification development for the Avocado TikTok scraper service
(backend/app/services/scraper.py).

The Python service is shallowly embedded: JSON values become an inductive
`Json` type with Python truthiness, `dict.get` becomes a total lookup
returning `Json.null` for absent keys (`pyGet`) or a supplied default
(`pyGetD`), the short-circuiting Python `or` becomes `pyOr`, and attribute
access `.get` on a possibly-non-dict value becomes a fallible operation
that raises `AttributeError` exactly when Python would.  Exceptions become
an inductive `PyExc`; `try/except` blocks become explicit matches on
`Except PyExc` results.  The HTTP layer is abstracted as a `FetchOutcome`:
either a transport failure (httpx.HTTPError with its message) or an
`HttpResponse` carrying the status code, the body text, and the result of
`response.json()` (which may itself raise a JSON decode error, a subclass
of ValueError in Python).
-/

namespace Avocado

/-- JSON values as delivered by `response.json()`.  Numbers are modelled as
integers (all payload fields the service reads are counts or strings). -/
inductive Json where
  | null : Json
  | bool (b : Bool) : Json
  | num (n : Int) : Json
  | str (s : String) : Json
  | obj (kvs : List (String × Json)) : Json

/-- Python truthiness of a JSON value: `None`, `False`, `0`, `""` and `{}`
are falsy, everything else is truthy. -/
def Json.truthy : Json → Bool
  | .null => false
  | .bool b => b
  | .num n => n != 0
  | .str s => s != ""
  | .obj kvs => !kvs.isEmpty

/-- Python `x is not None`. -/
def pyIsNotNone : Json → Bool
  | .null => false
  | _ => true

/-- Python `d.get(k)`: the value at `k`, or `None` when the key is absent. -/
def pyGet (d : List (String × Json)) (k : String) : Json :=
  (d.lookup k).getD Json.null

/-- Python `d.get(k, default)`: the value at `k`, or `default` when absent
(note: a key present with value `None` yields `None`, not the default). -/
def pyGetD (d : List (String × Json)) (k : String) (default : Json) : Json :=
  (d.lookup k).getD default

/-- Python `a or b` on already-evaluated operands: `a` when truthy, else `b`. -/
def pyOr (a b : Json) : Json :=
  if a.truthy then a else b

/-- The exceptions that can flow through the scraper, named after the Python
classes.  `SupadataAuthError` and `SupadataCreditsExhausted` carry no data in
the model; `SupadataAPIError` carries its message and optional status code.
`ValueErrorExc` stands for a plain `ValueError` (raised by the URL
utilities on invalid input) and `JSONDecodeError` for `json.JSONDecodeError`
(a ValueError subclass, raised by `response.json()` on a malformed body).
`AttributeError` is raised by `.get` attribute access on a non-dict; its
Python message is immaterial to every claim, so it carries no payload. -/
inductive PyExc where
  | SupadataAuthError : PyExc
  | SupadataCreditsExhausted : PyExc
  | SupadataAPIError (message : String) (statusCode : Option Nat) : PyExc
  | InvalidTikTokURLError (reason : String) : PyExc
  | ValueErrorExc (msg : String) : PyExc
  | JSONDecodeError (msg : String) : PyExc
  | AttributeError : PyExc
deriving DecidableEq

/-- Python `str(e)` for the exceptions above.  For the Supadata exceptions it
is the stored message (standard `Exception.__init__` behaviour); the exact
strings for the no-payload constructors never influence a claim. -/
def pyExcStr : PyExc → String
  | .SupadataAuthError => "Supadata authentication failed"
  | .SupadataCreditsExhausted => "Supadata credits exhausted"
  | .SupadataAPIError m _ => m
  | .InvalidTikTokURLError r => r
  | .ValueErrorExc m => m
  | .JSONDecodeError m => m
  | .AttributeError => "object has no attribute get"

/-- An HTTP response as seen by the service: `status` is
`response.status_code`, `text` is `response.text`, and `jsonBody` is the
outcome of `response.json()` (either the parsed value or a raised
`JSONDecodeError`). -/
structure HttpResponse where
  status : Nat
  text : String
  jsonBody : Except PyExc Json

/-- Outcome of `client.get(...)`: a response, or an `httpx.HTTPError`
(transport failure) with its message. -/
inductive FetchOutcome where
  | response (r : HttpResponse) : FetchOutcome
  | httpError (msg : String) : FetchOutcome

/-- Schema `TikTokMetadata`: the eight extracted fields, all nullable. -/
structure TikTokMetadata where
  title : Json
  description : Json
  audio_url : Json
  author : Json
  likes : Json
  views : Json
  shares : Json
  comments : Json

/-- Schema `TikTokTranscript`. -/
structure TikTokTranscript where
  text : Json
  language : Json

/-- Schema `TikTokData`: the aggregate record returned by the orchestrator. -/
structure TikTokData where
  url : String
  video_id : Option String
  title : Json
  description : Json
  audio_url : Json
  author : Json
  likes : Json
  views : Json
  shares : Json
  comments : Json
  transcript : Json
  transcript_language : Json
  has_transcript : Bool

/-- The per-field extraction pattern
`data.get(flat) or data.get(k1, \x7b\x7d).get(k2)` used by the metadata
mapper.  Python `or` short-circuits, so when the flat value is truthy the
nested access is never evaluated; otherwise `data.get(k1, \x7b\x7d)` yields
the stored value (or an empty dict when the key is absent), and the `.get(k2)`
attribute access raises `AttributeError` unless that value is a dict. -/
def fallback (d : List (String × Json)) (flat k1 k2 : String) : Except PyExc Json :=
  if (pyGet d flat).truthy then Except.ok (pyGet d flat)
  else
    match pyGetD d k1 (Json.obj []) with
    | Json.obj kvs => Except.ok (pyGet kvs k2)
    | _ => Except.error PyExc.AttributeError

/-- The metadata response mapper: the `TikTokMetadata(...)` construction in
`_fetch_metadata`, arguments evaluated in source order; the first raising
extraction aborts the construction. -/
def parseMetadata (d : List (String × Json)) : Except PyExc TikTokMetadata :=
  let title := pyOr (pyGet d "title") (pyGet d "desc")
  let description := pyOr (pyGet d "description") (pyGet d "desc")
  match fallback d "audio_url" "music" "playUrl" with
  | Except.error e => Except.error e
  | Except.ok audio_url =>
  match fallback d "author" "author" "uniqueId" with
  | Except.error e => Except.error e
  | Except.ok author =>
  match fallback d "likes" "stats" "diggCount" with
  | Except.error e => Except.error e
  | Except.ok likes =>
  match fallback d "views" "stats" "playCount" with
  | Except.error e => Except.error e
  | Except.ok views =>
  match fallback d "shares" "stats" "shareCount" with
  | Except.error e => Except.error e
  | Except.ok shares =>
  match fallback d "comments" "stats" "commentCount" with
  | Except.error e => Except.error e
  | Except.ok comments =>
    Except.ok { title, description, audio_url, author, likes, views, shares, comments }

/-- The transcript body mapper in `_fetch_transcript`: extract
`data.get("text") or data.get("transcript")` and
`data.get("language") or data.get("lang")`; return a transcript only when
the text is truthy, else `None`.  Total: no nested attribute access. -/
def parseTranscriptBody (d : List (String × Json)) : Option TikTokTranscript :=
  let transcript_text := pyOr (pyGet d "text") (pyGet d "transcript")
  let language := pyOr (pyGet d "language") (pyGet d "lang")
  if transcript_text.truthy then some { text := transcript_text, language }
  else none

/-- `TikTokScraper._fetch_metadata`, as a function of the HTTP outcome.
Status handling in source order: 401, 402, then any other status >= 400,
then `response.json()` and the mapper.  Only `httpx.HTTPError` is caught
(and wrapped into a `SupadataAPIError` with no status code); the Supadata
exceptions, JSON decode errors and mapper `AttributeError`s propagate. -/
def fetchMetadata (out : FetchOutcome) : Except PyExc TikTokMetadata :=
  match out with
  | .httpError msg =>
      Except.error (PyExc.SupadataAPIError ("Failed to fetch metadata: " ++ msg) none)
  | .response r =>
      if r.status = 401 then Except.error PyExc.SupadataAuthError
      else if r.status = 402 then Except.error PyExc.SupadataCreditsExhausted
      else if 400 ≤ r.status then
        Except.error (PyExc.SupadataAPIError
          ("Metadata API error: " ++ toString r.status ++ " - " ++ r.text) (some r.status))
      else
        match r.jsonBody with
        | Except.error e => Except.error e
        | Except.ok (Json.obj d) => parseMetadata d
        | Except.ok _ => Except.error PyExc.AttributeError

/-- `TikTokScraper._fetch_transcript`, as a function of the HTTP outcome.
Same status handling as the metadata fetch except that 404 is checked first
and yields `none` (no transcript available) rather than an error. -/
def fetchTranscript (out : FetchOutcome) : Except PyExc (Option TikTokTranscript) :=
  match out with
  | .httpError msg =>
      Except.error (PyExc.SupadataAPIError ("Failed to fetch transcript: " ++ msg) none)
  | .response r =>
      if r.status = 404 then Except.ok none
      else if r.status = 401 then Except.error PyExc.SupadataAuthError
      else if r.status = 402 then Except.error PyExc.SupadataCreditsExhausted
      else if 400 ≤ r.status then
        Except.error (PyExc.SupadataAPIError
          ("Transcript API error: " ++ toString r.status ++ " - " ++ r.text) (some r.status))
      else
        match r.jsonBody with
        | Except.error e => Except.error e
        | Except.ok (Json.obj d) => Except.ok (parseTranscriptBody d)
        | Except.ok _ => Except.error PyExc.AttributeError

/-- Step 5 of `fetch_tiktok_data`: assemble the `TikTokData` record from the
resolved URL, the video id, the metadata and the optional transcript. -/
def assemble (resolved_url : String) (video_id : Option String)
    (metadata : TikTokMetadata) (transcript : Option TikTokTranscript) : TikTokData :=
  { url := resolved_url
    video_id := video_id
    title := metadata.title
    description := metadata.description
    audio_url := metadata.audio_url
    author := metadata.author
    likes := metadata.likes
    views := metadata.views
    shares := metadata.shares
    comments := metadata.comments
    transcript := match transcript with | some t => t.text | none => Json.null
    transcript_language := match transcript with | some t => t.language | none => Json.null
    has_transcript :=
      match transcript with
      | some t => pyIsNotNone t.text
      | none => false }

/-- The body of the `try` block of `fetch_tiktok_data`: URL normalization
outcome (abstracted as an `Except` of resolved URL and video id, since the
URL utilities live outside this service), then the two fetches.
`asyncio.gather(..., return_exceptions=False)` is modelled deterministically
with the metadata task first; scheduling nondeterminism only matters for the
cancellation claim, which is settled separately. -/
def runBody (urlStage : Except PyExc (String × Option String))
    (mOut tOut : FetchOutcome) : Except PyExc TikTokData :=
  match urlStage with
  | Except.error e => Except.error e
  | Except.ok (resolved_url, video_id) =>
    match fetchMetadata mOut with
    | Except.error e => Except.error e
    | Except.ok metadata =>
      match fetchTranscript tOut with
      | Except.error e => Except.error e
      | Except.ok transcript =>
        Except.ok (assemble resolved_url video_id metadata transcript)

/-- The `except` clauses of `fetch_tiktok_data`, in source order:
`except ValueError` (which also catches `json.JSONDecodeError`, a ValueError
subclass) re-raises as `InvalidTikTokURLError(str(e))`; auth and credits
errors are re-raised as-is; every other exception — including an already
classified `SupadataAPIError` — is caught by `except Exception` and
re-wrapped into a fresh `SupadataAPIError` with a prefixed message and no
status code. -/
def handleExc : PyExc → PyExc
  | .ValueErrorExc m => .InvalidTikTokURLError m
  | .JSONDecodeError m => .InvalidTikTokURLError m
  | .SupadataAuthError => .SupadataAuthError
  | .SupadataCreditsExhausted => .SupadataCreditsExhausted
  | e => .SupadataAPIError ("Failed to fetch TikTok data: " ++ pyExcStr e) none

/-- `TikTokScraper.fetch_tiktok_data`: run the body, mapping any raised
exception through the handler clauses. -/
def fetch_tiktok_data (urlStage : Except PyExc (String × Option String))
    (mOut tOut : FetchOutcome) : Except PyExc TikTokData :=
  match runBody urlStage mOut tOut with
  | Except.ok d => Except.ok d
  | Except.error e => Except.error (handleExc e)

namespace UrlNorm

/-- Modelled from the spec: the repository module `app.utils.url_utils`
(functions `clean_tiktok_url`, `resolve_short_url`, `extract_video_id`) is
not under the provided sources; this URL model follows spec section 4.1.
A URL is taken already parsed into host, path segments and query
parameters; the raw-string concerns (surrounding whitespace, parse failure)
are absorbed into the parsing step that precedes this structure. -/
structure Url where
  host : String
  path : List String
  query : List (String × String)
deriving DecidableEq

/-- Modelled from the spec: tracking query parameters stripped by
normalization step 1 (representative set; the exact list is immaterial to
the claims). -/
def trackingParams : List String :=
  ["utm_source", "utm_medium", "utm_campaign", "_t", "_r"]

/-- Modelled from the spec: the known short-link domains of step 2. -/
def shortLinkHosts : List String := ["vt.tiktok.com", "vm.tiktok.com"]

/-- Modelled from the spec: the accepted domain pattern for the platform. -/
def acceptedHosts : List String :=
  ["www.tiktok.com", "m.tiktok.com", "tiktok.com", "vt.tiktok.com", "vm.tiktok.com"]

/-- Normalization failure: spec section 4.1 surfaces every failure of the
normalizer as InvalidInput. -/
inductive NormError where
  | invalidInput (reason : String) : NormError
deriving DecidableEq

/-- Modelled from the spec: step 1 — validate the domain and strip tracking
query parameters. -/
def clean_tiktok_url (u : Url) : Except NormError Url :=
  if acceptedHosts.contains u.host then
    Except.ok { u with query := u.query.filter (fun p => !(trackingParams.contains p.fst)) }
  else
    Except.error (NormError.invalidInput "not a recognized TikTok URL")

/-- Modelled from the spec: step 2 — when the host is a short-link domain,
perform one redirect-resolution round trip.  The network is abstracted as a
function `net` giving the redirect target, `none` meaning the round trip
failed (network error or non-redirect response), which is InvalidInput. -/
def resolve_short_url (net : Url → Option Url) (u : Url) : Except NormError Url :=
  if shortLinkHosts.contains u.host then
    match net u with
    | some v => Except.ok v
    | none => Except.error (NormError.invalidInput "could not resolve short link")
  else
    Except.ok u

/-- Modelled from the spec: step 3 — extract the numeric video identifier
from a canonical path of the shape user / video / id. -/
def extract_video_id (u : Url) : Except NormError String :=
  match u.path with
  | [_user, seg, vid] =>
      if seg = "video" && !vid.data.isEmpty && vid.data.all Char.isDigit then
        Except.ok vid
      else
        Except.error (NormError.invalidInput "no video id in URL path")
  | _ => Except.error (NormError.invalidInput "no video id in URL path")

/-- The ResolvedURL value object of spec section 3. -/
structure ResolvedURL where
  raw : Url
  cleaned : Url
  resolved : Url
  videoId : String
deriving DecidableEq

/-- The normalization pipeline as composed by the orchestrator (steps 1-3
of `fetch_tiktok_data`): clean, resolve, extract. -/
def normalize (net : Url → Option Url) (u : Url) : Except NormError ResolvedURL :=
  match clean_tiktok_url u with
  | Except.error e => Except.error e
  | Except.ok c =>
    match resolve_short_url net c with
    | Except.error e => Except.error e
    | Except.ok r =>
      match extract_video_id r with
      | Except.error e => Except.error e
      | Except.ok vid => Except.ok { raw := u, cleaned := c, resolved := r, videoId := vid }

/-- The redirect resolver lands on canonical long-form URLs: an accepted
host that is not itself a short-link domain, with no tracking parameters
left in the query.  This is the spec's picture of step 2 (the round trip
yields the canonical long-form URL). -/
def NetCanonical (net : Url → Option Url) : Prop :=
  ∀ u v, net u = some v →
    acceptedHosts.contains v.host = true ∧
    shortLinkHosts.contains v.host = false ∧
    v.query.filter (fun p => !(trackingParams.contains p.fst)) = v.query

/-- A concrete canonical long-form URL, used as witness data. -/
def canonEx : Url :=
  { host := "www.tiktok.com", path := ["@user", "video", "7000000000000000000"], query := [] }

/-- A concrete short-link URL carrying a tracking parameter, witness data. -/
def shortEx : Url :=
  { host := "vt.tiktok.com", path := ["ABC123"], query := [("_t", "x")] }

/-- A concrete redirect resolver sending every short link to `canonEx`. -/
def netEx : Url → Option Url := fun _ => some canonEx

end UrlNorm

/-- The spec predicate on the transcript outcome: transcript present and
transcript text non-empty (Python truthiness of the text coincides with
non-emptiness for strings). -/
def transcriptPresentNonempty : Option TikTokTranscript → Bool
  | some tr => tr.text.truthy
  | none => false

/-! Helper lemmas shared by the claim theorems. -/

theorem pyGet_of_lookup_none {d : List (String × Json)} {k : String}
    (h : d.lookup k = none) : pyGet d k = Json.null := by
  simp [pyGet, h]

theorem pyGet_of_lookup_some {d : List (String × Json)} {k : String} {v : Json}
    (h : d.lookup k = some v) : pyGet d k = v := by
  simp [pyGet, h]

theorem pyGet_falsy {d : List (String × Json)} {k : String}
    (h : ∀ v, d.lookup k = some v → v.truthy = false) : (pyGet d k).truthy = false := by
  cases hv : d.lookup k with
  | none => simp [pyGet, hv, Json.truthy]
  | some v => rw [pyGet_of_lookup_some hv]; exact h v hv

theorem pyOr_of_truthy {a : Json} (b : Json) (h : a.truthy = true) : pyOr a b = a := by
  simp [pyOr, h]

theorem pyOr_null (b : Json) : pyOr Json.null b = b := by
  simp [pyOr, Json.truthy]

theorem truthy_ne_null {j : Json} (h : j.truthy = true) : j ≠ Json.null := by
  cases j <;> simp_all [Json.truthy]

theorem truthy_isNotNone {j : Json} (h : j.truthy = true) : pyIsNotNone j = true := by
  cases j <;> simp_all [Json.truthy, pyIsNotNone]

theorem fallback_of_truthy {d : List (String × Json)} {flat : String} (k1 k2 : String)
    (h : (pyGet d flat).truthy = true) :
    fallback d flat k1 k2 = Except.ok (pyGet d flat) := by
  simp [fallback, h]

theorem fallback_of_absent_absent {d : List (String × Json)} {flat k1 : String} (k2 : String)
    (h1 : d.lookup flat = none) (h2 : d.lookup k1 = none) :
    fallback d flat k1 k2 = Except.ok Json.null := by
  have ha : pyGet d flat = Json.null := pyGet_of_lookup_none h1
  simp only [fallback, ha, Json.truthy]
  simp [pyGetD, h2, pyGet]

theorem fallback_of_absent_obj {d : List (String × Json)} {flat k1 : String} (k2 : String)
    {kvs : List (String × Json)}
    (h1 : d.lookup flat = none) (h2 : d.lookup k1 = some (Json.obj kvs)) :
    fallback d flat k1 k2 = Except.ok (pyGet kvs k2) := by
  have ha : pyGet d flat = Json.null := pyGet_of_lookup_none h1
  simp only [fallback, ha, Json.truthy]
  simp [pyGetD, h2]

theorem fallback_ok_of_nested (d : List (String × Json)) (flat k1 k2 : String)
    (h : ∀ v, d.lookup k1 = some v → ∃ kvs, v = Json.obj kvs) :
    ∃ j, fallback d flat k1 k2 = Except.ok j := by
  by_cases ht : (pyGet d flat).truthy = true
  · exact ⟨_, fallback_of_truthy k1 k2 ht⟩
  · cases h2 : d.lookup k1 with
    | none =>
        refine ⟨pyGet [] k2, ?_⟩
        simp [fallback, ht, pyGetD, h2]
    | some v =>
        obtain ⟨kvs, rfl⟩ := h v h2
        refine ⟨pyGet kvs k2, ?_⟩
        simp [fallback, ht, pyGetD, h2]

theorem parseMetadata_ok_proj {d : List (String × Json)} {m : TikTokMetadata}
    (h : parseMetadata d = Except.ok m) :
    fallback d "audio_url" "music" "playUrl" = Except.ok m.audio_url ∧
    fallback d "author" "author" "uniqueId" = Except.ok m.author ∧
    fallback d "likes" "stats" "diggCount" = Except.ok m.likes ∧
    fallback d "views" "stats" "playCount" = Except.ok m.views ∧
    fallback d "shares" "stats" "shareCount" = Except.ok m.shares ∧
    fallback d "comments" "stats" "commentCount" = Except.ok m.comments ∧
    m.title = pyOr (pyGet d "title") (pyGet d "desc") ∧
    m.description = pyOr (pyGet d "description") (pyGet d "desc") := by
  unfold parseMetadata at h
  repeat' split at h
  all_goals simp_all
  subst h
  simp

theorem parseTranscriptBody_some {d : List (String × Json)} {tr : TikTokTranscript}
    (h : parseTranscriptBody d = some tr) : tr.text.truthy = true := by
  by_cases htr : (pyOr (pyGet d "text") (pyGet d "transcript")).truthy = true
  · simp only [parseTranscriptBody, htr, if_true] at h
    injection h with h2
    rw [← h2]
    exact htr
  · simp only [parseTranscriptBody, htr, if_false] at h
    cases h

theorem fetchTranscript_ok_some {tOut : FetchOutcome} {tr : TikTokTranscript}
    (h : fetchTranscript tOut = Except.ok (some tr)) : tr.text.truthy = true := by
  cases tOut with
  | httpError msg => simp [fetchTranscript] at h
  | response r =>
      unfold fetchTranscript at h
      repeat' split at h
      all_goals simp_all
      exact parseTranscriptBody_some h

theorem fetch_ok_cases {uo : Except PyExc (String × Option String)}
    {mOut tOut : FetchOutcome} {d : TikTokData}
    (h : fetch_tiktok_data uo mOut tOut = Except.ok d) :
    ∃ ru vid md t, uo = Except.ok (ru, vid) ∧ fetchMetadata mOut = Except.ok md ∧
      fetchTranscript tOut = Except.ok t ∧ d = assemble ru vid md t := by
  unfold fetch_tiktok_data at h
  cases hrb : runBody uo mOut tOut with
  | error e => rw [hrb] at h; simp at h
  | ok d2 =>
      rw [hrb] at h
      simp at h
      subst h
      unfold runBody at hrb
      cases uo with
      | error e => simp at hrb
      | ok p =>
          obtain ⟨ru, vid⟩ := p
          cases hm : fetchMetadata mOut with
          | error e => rw [hm] at hrb; simp at hrb
          | ok md =>
              rw [hm] at hrb
              cases ht : fetchTranscript tOut with
              | error e => rw [ht] at hrb; simp at hrb
              | ok t =>
                  rw [ht] at hrb
                  simp at hrb
                  exact ⟨ru, vid, md, t, rfl, rfl, rfl, hrb.symm⟩

/-! Claim theorems. -/

/-- Claim C1: for every input whose transcript request returns HTTP 404
while the metadata request succeeds, `fetch_tiktok_data` succeeds rather
than fails — the transcript fetch yields `none` instead of an error, and
the returned record has `transcript = null` and `has_transcript = false`. -/
theorem fetch_succeeds_on_transcript_404
    (u : String × Option String) (mOut : FetchOutcome) (md : TikTokMetadata)
    (r : HttpResponse)
    (hm : fetchMetadata mOut = Except.ok md) (h404 : r.status = 404) :
    fetchTranscript (FetchOutcome.response r) = Except.ok none ∧
    ∃ d, fetch_tiktok_data (Except.ok u) mOut (FetchOutcome.response r) = Except.ok d ∧
      d.transcript = Json.null ∧ d.has_transcript = false := by
  have ht : fetchTranscript (FetchOutcome.response r) = Except.ok none := by
    simp [fetchTranscript, h404]
  refine ⟨ht, assemble u.1 u.2 md none, ?_, rfl, rfl⟩
  simp [fetch_tiktok_data, runBody, hm, ht]

/-- Witness for C1: a concrete run with metadata 200 on an empty JSON object
and transcript 404. -/
theorem fetch_succeeds_on_transcript_404_witness :
    fetchMetadata (FetchOutcome.response ⟨200, "", Except.ok (Json.obj [])⟩) =
      Except.ok ⟨Json.null, Json.null, Json.null, Json.null,
                 Json.null, Json.null, Json.null, Json.null⟩ ∧
    (fetchTranscript (FetchOutcome.response ⟨404, "", Except.ok Json.null⟩) = Except.ok none ∧
     ∃ d, fetch_tiktok_data
            (Except.ok ("https://www.tiktok.com/@u/video/7000000000000000000",
                        some "7000000000000000000"))
            (FetchOutcome.response ⟨200, "", Except.ok (Json.obj [])⟩)
            (FetchOutcome.response ⟨404, "", Except.ok Json.null⟩) = Except.ok d ∧
       d.transcript = Json.null ∧ d.has_transcript = false) :=
  ⟨rfl,
   fetch_succeeds_on_transcript_404
     ("https://www.tiktok.com/@u/video/7000000000000000000", some "7000000000000000000")
     (FetchOutcome.response ⟨200, "", Except.ok (Json.obj [])⟩)
     ⟨Json.null, Json.null, Json.null, Json.null, Json.null, Json.null, Json.null, Json.null⟩
     ⟨404, "", Except.ok Json.null⟩ rfl rfl⟩

/-- Claim C2: `_fetch_metadata` maps upstream outcomes exactly as the table
requires — 200 parses the body through the mapper, 401 is an auth error,
402 is credits exhausted, any other status at or above 400 is a generic API
error carrying that status and a body-derived message, and a transport
failure is a generic API error with a synthesized message and no status;
`_fetch_transcript` follows the same mapping except that 404 yields the
absence value. -/
theorem upstream_status_mapping (r : HttpResponse) (msg : String)
    (d : List (String × Json)) :
    (r.status = 401 →
        fetchMetadata (FetchOutcome.response r) = Except.error PyExc.SupadataAuthError ∧
        fetchTranscript (FetchOutcome.response r) = Except.error PyExc.SupadataAuthError) ∧
    (r.status = 402 →
        fetchMetadata (FetchOutcome.response r) = Except.error PyExc.SupadataCreditsExhausted ∧
        fetchTranscript (FetchOutcome.response r) = Except.error PyExc.SupadataCreditsExhausted) ∧
    (400 ≤ r.status → r.status ≠ 401 → r.status ≠ 402 →
        fetchMetadata (FetchOutcome.response r) = Except.error
          (PyExc.SupadataAPIError
            ("Metadata API error: " ++ toString r.status ++ " - " ++ r.text)
            (some r.status)) ∧
        (r.status ≠ 404 →
          fetchTranscript (FetchOutcome.response r) = Except.error
            (PyExc.SupadataAPIError
              ("Transcript API error: " ++ toString r.status ++ " - " ++ r.text)
              (some r.status))) ∧
        (r.status = 404 → fetchTranscript (FetchOutcome.response r) = Except.ok none)) ∧
    (r.status = 200 → r.jsonBody = Except.ok (Json.obj d) →
        fetchMetadata (FetchOutcome.response r) = parseMetadata d ∧
        fetchTranscript (FetchOutcome.response r) = Except.ok (parseTranscriptBody d)) ∧
    (fetchMetadata (FetchOutcome.httpError msg) = Except.error
        (PyExc.SupadataAPIError ("Failed to fetch metadata: " ++ msg) none) ∧
     fetchTranscript (FetchOutcome.httpError msg) = Except.error
        (PyExc.SupadataAPIError ("Failed to fetch transcript: " ++ msg) none)) := by
  refine ⟨?_, ?_, ?_, ?_, ?_⟩
  · intro h; constructor <;> simp [fetchMetadata, fetchTranscript, h]
  · intro h; constructor <;> simp [fetchMetadata, fetchTranscript, h]
  · intro hge h1 h2
    refine ⟨?_, ?_, ?_⟩
    · simp [fetchMetadata, h1, h2, hge]
    · intro h4; simp [fetchTranscript, h1, h2, h4, hge]
    · intro h4; simp [fetchTranscript, h4]
  · intro h hb
    constructor <;> simp [fetchMetadata, fetchTranscript, h, hb]
  · constructor <;> simp [fetchMetadata, fetchTranscript]

/-- Witness for C2: the mapping evaluated at concrete responses, one per row
of the table, for both fetches. -/
theorem upstream_status_mapping_witness :
    (fetchMetadata (FetchOutcome.response ⟨401, "", Except.ok Json.null⟩) =
        Except.error PyExc.SupadataAuthError ∧
     fetchTranscript (FetchOutcome.response ⟨401, "", Except.ok Json.null⟩) =
        Except.error PyExc.SupadataAuthError) ∧
    (fetchMetadata (FetchOutcome.response ⟨402, "", Except.ok Json.null⟩) =
        Except.error PyExc.SupadataCreditsExhausted ∧
     fetchTranscript (FetchOutcome.response ⟨402, "", Except.ok Json.null⟩) =
        Except.error PyExc.SupadataCreditsExhausted) ∧
    fetchMetadata (FetchOutcome.response ⟨500, "oops", Except.ok Json.null⟩) =
      Except.error (PyExc.SupadataAPIError
        ("Metadata API error: " ++ toString (500 : Nat) ++ " - " ++ "oops") (some 500)) ∧
    fetchTranscript (FetchOutcome.response ⟨404, "", Except.ok Json.null⟩) = Except.ok none ∧
    fetchMetadata (FetchOutcome.response ⟨200, "", Except.ok (Json.obj [])⟩) =
      parseMetadata [] ∧
    fetchMetadata (FetchOutcome.httpError "timeout") =
      Except.error (PyExc.SupadataAPIError ("Failed to fetch metadata: " ++ "timeout") none) := by
  refine ⟨?_, ?_, ?_, ?_, ?_, ?_⟩
  · exact (upstream_status_mapping ⟨401, "", Except.ok Json.null⟩ "" []).1 rfl
  · exact (upstream_status_mapping ⟨402, "", Except.ok Json.null⟩ "" []).2.1 rfl
  · exact ((upstream_status_mapping ⟨500, "oops", Except.ok Json.null⟩ "" []).2.2.1
      (by decide) (by decide) (by decide)).1
  · exact ((upstream_status_mapping ⟨404, "", Except.ok Json.null⟩ "" []).2.2.1
      (by decide) (by decide) (by decide)).2.2 rfl
  · exact ((upstream_status_mapping ⟨200, "", Except.ok (Json.obj [])⟩ "" []).2.2.2.1
      rfl rfl).1
  · exact (upstream_status_mapping ⟨200, "", Except.ok Json.null⟩ "timeout" []).2.2.2.2.1

/-- Counterexample to claim C3: a run in which the metadata endpoint answers
500 with body text oops.  The client boundary raises a classified generic
API error carrying status 500 and a body-derived message, but the caller of
`fetch_tiktok_data` receives a different error object: the orchestrator
catch-all re-wraps it with a prefixed message and drops the status code. -/
theorem generic_api_error_rewrapped_cex :
    fetchMetadata (FetchOutcome.response ⟨500, "oops", Except.ok Json.null⟩) =
      Except.error (PyExc.SupadataAPIError "Metadata API error: 500 - oops" (some 500)) ∧
    fetch_tiktok_data
        (Except.ok ("https://www.tiktok.com/@u/video/7000000000000000000",
                    some "7000000000000000000"))
        (FetchOutcome.response ⟨500, "oops", Except.ok Json.null⟩)
        (FetchOutcome.response ⟨200, "", Except.ok (Json.obj [("text", Json.str "hi")])⟩) =
      Except.error (PyExc.SupadataAPIError
        "Failed to fetch TikTok data: Metadata API error: 500 - oops" none) ∧
    PyExc.SupadataAPIError "Failed to fetch TikTok data: Metadata API error: 500 - oops" none ≠
      PyExc.SupadataAPIError "Metadata API error: 500 - oops" (some 500) := by
  refine ⟨by rfl, by rfl, by decide⟩

/-- Claim C3 amended: auth and credits errors, and the ValueError raised by
URL validation, are surfaced with their classification intact (the latter
re-tagged as InvalidTikTokURLError with the same message, which is the
validation-boundary classification itself); but a generic `SupadataAPIError`
is not propagated unchanged — the orchestrator catch-all re-wraps it into a
new `SupadataAPIError` whose message is prefixed with a synthesized header
and whose status code is dropped. -/
theorem error_propagation_amended (uo : Except PyExc (String × Option String))
    (mOut tOut : FetchOutcome) :
    (runBody uo mOut tOut = Except.error PyExc.SupadataAuthError →
      fetch_tiktok_data uo mOut tOut = Except.error PyExc.SupadataAuthError) ∧
    (runBody uo mOut tOut = Except.error PyExc.SupadataCreditsExhausted →
      fetch_tiktok_data uo mOut tOut = Except.error PyExc.SupadataCreditsExhausted) ∧
    (∀ m, runBody uo mOut tOut = Except.error (PyExc.ValueErrorExc m) →
      fetch_tiktok_data uo mOut tOut = Except.error (PyExc.InvalidTikTokURLError m)) ∧
    (∀ m s, runBody uo mOut tOut = Except.error (PyExc.SupadataAPIError m s) →
      fetch_tiktok_data uo mOut tOut = Except.error
        (PyExc.SupadataAPIError ("Failed to fetch TikTok data: " ++ m) none)) := by
  refine ⟨?_, ?_, ?_, ?_⟩
  · intro h; simp [fetch_tiktok_data, h, handleExc]
  · intro h; simp [fetch_tiktok_data, h, handleExc]
  · intro m h; simp [fetch_tiktok_data, h, handleExc]
  · intro m s h; simp [fetch_tiktok_data, h, handleExc, pyExcStr]

/-- Witness for the amended C3: an auth failure on the metadata endpoint is
surfaced unchanged, and a 503 generic error is surfaced re-wrapped. -/
theorem error_propagation_amended_witness :
    fetch_tiktok_data (Except.ok ("u", none))
        (FetchOutcome.response ⟨401, "", Except.ok Json.null⟩)
        (FetchOutcome.response ⟨404, "", Except.ok Json.null⟩) =
      Except.error PyExc.SupadataAuthError ∧
    fetch_tiktok_data (Except.ok ("u", none))
        (FetchOutcome.response ⟨503, "down", Except.ok Json.null⟩)
        (FetchOutcome.response ⟨404, "", Except.ok Json.null⟩) =
      Except.error (PyExc.SupadataAPIError
        ("Failed to fetch TikTok data: " ++ "Metadata API error: 503 - down") none) :=
  ⟨(error_propagation_amended (Except.ok ("u", none))
      (FetchOutcome.response ⟨401, "", Except.ok Json.null⟩)
      (FetchOutcome.response ⟨404, "", Except.ok Json.null⟩)).1 (by rfl),
   (error_propagation_amended (Except.ok ("u", none))
      (FetchOutcome.response ⟨503, "down", Except.ok Json.null⟩)
      (FetchOutcome.response ⟨404, "", Except.ok Json.null⟩)).2.2.2
      "Metadata API error: 503 - down" (some 503) (by rfl)⟩

/-- Counterexample to claim C4: the mapper is not total.  On the payload
with the single pair author maps-to null — a present top-level key whose
value is not an object — the extraction
`data.get("author") or data.get("author", default).get("uniqueId")` raises
`AttributeError` (in Python, `None` has no attribute `get`) instead of
degrading the field to null. -/
theorem mapper_raises_on_null_author_cex :
    parseMetadata [("author", Json.null)] = Except.error PyExc.AttributeError := by
  rfl

/-- Claim C4 amended: the metadata extraction never raises provided every
value present under the keys music, stats and author is a JSON object —
absent keys and absent nested fields still degrade the corresponding field
to null — and the transcript body extraction never raises on any JSON
object; but a present top-level music, stats or author key whose value is
not an object makes the metadata extraction raise. -/
theorem mapper_total_amended :
    (∀ d : List (String × Json),
      (∀ k, k ∈ ["music", "stats", "author"] → ∀ v, d.lookup k = some v →
        ∃ kvs, v = Json.obj kvs) →
      ∃ m, parseMetadata d = Except.ok m) ∧
    (∀ (r : HttpResponse) (d : List (String × Json)), r.status = 200 →
      r.jsonBody = Except.ok (Json.obj d) →
      fetchTranscript (FetchOutcome.response r) = Except.ok (parseTranscriptBody d)) := by
  constructor
  · intro d hd
    obtain ⟨a1, h1⟩ := fallback_ok_of_nested d "audio_url" "music" "playUrl"
      (fun v hv => hd "music" (by simp) v hv)
    obtain ⟨a2, h2⟩ := fallback_ok_of_nested d "author" "author" "uniqueId"
      (fun v hv => hd "author" (by simp) v hv)
    obtain ⟨a3, h3⟩ := fallback_ok_of_nested d "likes" "stats" "diggCount"
      (fun v hv => hd "stats" (by simp) v hv)
    obtain ⟨a4, h4⟩ := fallback_ok_of_nested d "views" "stats" "playCount"
      (fun v hv => hd "stats" (by simp) v hv)
    obtain ⟨a5, h5⟩ := fallback_ok_of_nested d "shares" "stats" "shareCount"
      (fun v hv => hd "stats" (by simp) v hv)
    obtain ⟨a6, h6⟩ := fallback_ok_of_nested d "comments" "stats" "commentCount"
      (fun v hv => hd "stats" (by simp) v hv)
    refine ⟨⟨pyOr (pyGet d "title") (pyGet d "desc"),
             pyOr (pyGet d "description") (pyGet d "desc"),
             a1, a2, a3, a4, a5, a6⟩, ?_⟩
    unfold parseMetadata
    rw [h1, h2, h3, h4, h5, h6]
  · intro r d h200 hb
    simp [fetchTranscript, h200, hb]

/-- Witness for the amended C4: a payload whose stats value is an object is
mapped without raising. -/
theorem mapper_total_amended_witness :
    ∃ m, parseMetadata [("stats", Json.obj [("diggCount", Json.num 5)])] = Except.ok m := by
  have hok : ∀ k, k ∈ ["music", "stats", "author"] →
      ∀ v, List.lookup k [("stats", Json.obj [("diggCount", Json.num 5)])] = some v →
      ∃ kvs, v = Json.obj kvs := by
    intro k hk v hv
    simp at hk
    rcases hk with rfl | rfl | rfl <;> simp [List.lookup] at hv
    exact ⟨_, hv.symm⟩
  exact mapper_total_amended.1 [("stats", Json.obj [("diggCount", Json.num 5)])] hok

/-- Claim C5: for every metadata payload and every canonical field the
mapper tries the flat canonical top-level key first and the
provider-specific alias second, yielding null when neither is present.
Part one characterizes the shared extraction: a truthy flat value wins and
the nested access is not consulted, the nested alias is consulted second,
and the field is null when neither key is present.  Part two ties every
nested-alias field of a successfully mapped record to that extraction with
its source keys (audio_url/music.playUrl, author/author.uniqueId,
likes/stats.diggCount, views/stats.playCount, shares/stats.shareCount,
comments/stats.commentCount).  Part three covers the two flat-alias fields:
title and description each prefer their canonical key (a truthy value wins)
and fall back to the desc alias, null when neither is present.  Part four
is the claimed instance: a payload with only stats.diggCount and no flat
likes key maps likes to the nested value. -/
theorem field_fallback_order :
    (∀ (d : List (String × Json)) (flat k1 k2 : String),
      ((pyGet d flat).truthy = true →
        fallback d flat k1 k2 = Except.ok (pyGet d flat)) ∧
      (d.lookup flat = none → d.lookup k1 = none →
        fallback d flat k1 k2 = Except.ok Json.null) ∧
      (∀ kvs, d.lookup flat = none → d.lookup k1 = some (Json.obj kvs) →
        fallback d flat k1 k2 = Except.ok (pyGet kvs k2))) ∧
    (∀ (d : List (String × Json)) (m : TikTokMetadata),
      parseMetadata d = Except.ok m →
      fallback d "audio_url" "music" "playUrl" = Except.ok m.audio_url ∧
      fallback d "author" "author" "uniqueId" = Except.ok m.author ∧
      fallback d "likes" "stats" "diggCount" = Except.ok m.likes ∧
      fallback d "views" "stats" "playCount" = Except.ok m.views ∧
      fallback d "shares" "stats" "shareCount" = Except.ok m.shares ∧
      fallback d "comments" "stats" "commentCount" = Except.ok m.comments) ∧
    (∀ (d : List (String × Json)) (m : TikTokMetadata),
      parseMetadata d = Except.ok m →
      (∀ v, d.lookup "title" = some v → v.truthy = true → m.title = v) ∧
      (d.lookup "title" = none → m.title = pyGet d "desc") ∧
      (d.lookup "title" = none → d.lookup "desc" = none → m.title = Json.null) ∧
      (∀ v, d.lookup "description" = some v → v.truthy = true → m.description = v) ∧
      (d.lookup "description" = none → m.description = pyGet d "desc") ∧
      (d.lookup "description" = none → d.lookup "desc" = none →
        m.description = Json.null)) ∧
    (∀ (d : List (String × Json)) (kvs : List (String × Json)) (v : Json)
        (m : TikTokMetadata),
      d.lookup "likes" = none → d.lookup "stats" = some (Json.obj kvs) →
      kvs.lookup "diggCount" = some v →
      parseMetadata d = Except.ok m → m.likes = v) := by
  refine ⟨?_, ?_, ?_, ?_⟩
  · intro d flat k1 k2
    exact ⟨fun h => fallback_of_truthy k1 k2 h,
           fun h1 h2 => fallback_of_absent_absent k2 h1 h2,
           fun kvs h1 h2 => fallback_of_absent_obj k2 h1 h2⟩
  · intro d m hok
    have h := parseMetadata_ok_proj hok
    exact ⟨h.1, h.2.1, h.2.2.1, h.2.2.2.1, h.2.2.2.2.1, h.2.2.2.2.2.1⟩
  · intro d m hok
    have hteq := (parseMetadata_ok_proj hok).2.2.2.2.2.2.1
    have hdeq := (parseMetadata_ok_proj hok).2.2.2.2.2.2.2
    refine ⟨?_, ?_, ?_, ?_, ?_, ?_⟩
    · intro v hv hvt
      rw [hteq, pyGet_of_lookup_some hv, pyOr_of_truthy _ hvt]
    · intro hnone
      rw [hteq, pyGet_of_lookup_none hnone, pyOr_null]
    · intro hnone hdnone
      rw [hteq, pyGet_of_lookup_none hnone, pyOr_null, pyGet_of_lookup_none hdnone]
    · intro v hv hvt
      rw [hdeq, pyGet_of_lookup_some hv, pyOr_of_truthy _ hvt]
    · intro hnone
      rw [hdeq, pyGet_of_lookup_none hnone, pyOr_null]
    · intro hnone hdnone
      rw [hdeq, pyGet_of_lookup_none hnone, pyOr_null, pyGet_of_lookup_none hdnone]
  · intro d kvs v m hflat hstats hdigg hok
    have hl := (parseMetadata_ok_proj hok).2.2.1
    rw [fallback_of_absent_obj "diggCount" hflat hstats] at hl
    have : pyGet kvs "diggCount" = v := pyGet_of_lookup_some hdigg
    rw [this] at hl
    exact (Except.ok.injEq _ _).mp hl.symm

/-- Witness for C5: a truthy flat value wins; with neither key the field is
null; on a mapped record each nested-alias field equals its extraction; a
payload with a truthy flat title maps title to it; the spec scenario with
only a desc alias maps title to the alias value; and a payload with only
stats.diggCount maps likes to the nested count. -/
theorem field_fallback_order_witness :
    fallback [("likes", Json.num 3)] "likes" "stats" "diggCount" =
      Except.ok (Json.num 3) ∧
    fallback [] "likes" "stats" "diggCount" = Except.ok Json.null ∧
    fallback [("stats", Json.obj [("diggCount", Json.num 5)])] "likes" "stats" "diggCount" =
      Except.ok (TikTokMetadata.likes ⟨Json.null, Json.null, Json.null, Json.null,
        Json.num 5, Json.null, Json.null, Json.null⟩) ∧
    TikTokMetadata.title ⟨Json.str "t", Json.str "d", Json.null, Json.null,
      Json.null, Json.null, Json.null, Json.null⟩ = Json.str "t" ∧
    TikTokMetadata.title ⟨Json.str "hello", Json.str "hello", Json.null, Json.null,
      Json.null, Json.null, Json.null, Json.null⟩ =
      pyGet [("desc", Json.str "hello")] "desc" ∧
    TikTokMetadata.likes ⟨Json.null, Json.null, Json.null, Json.null,
      Json.num 5, Json.null, Json.null, Json.null⟩ = Json.num 5 := by
  refine ⟨?_, ?_, ?_, ?_, ?_, ?_⟩
  · exact ((field_fallback_order.1 [("likes", Json.num 3)] "likes" "stats" "diggCount").1
      (by rfl))
  · exact ((field_fallback_order.1 [] "likes" "stats" "diggCount").2.1 rfl rfl)
  · exact (field_fallback_order.2.1 [("stats", Json.obj [("diggCount", Json.num 5)])]
      ⟨Json.null, Json.null, Json.null, Json.null,
       Json.num 5, Json.null, Json.null, Json.null⟩ (by rfl)).2.2.1
  · exact (field_fallback_order.2.2.1 [("title", Json.str "t"), ("desc", Json.str "d")]
      ⟨Json.str "t", Json.str "d", Json.null, Json.null,
       Json.null, Json.null, Json.null, Json.null⟩ (by rfl)).1
      (Json.str "t") rfl (by rfl)
  · exact (field_fallback_order.2.2.1 [("desc", Json.str "hello")]
      ⟨Json.str "hello", Json.str "hello", Json.null, Json.null,
       Json.null, Json.null, Json.null, Json.null⟩ (by rfl)).2.1 rfl
  · exact field_fallback_order.2.2.2 [("stats", Json.obj [("diggCount", Json.num 5)])]
      [("diggCount", Json.num 5)] (Json.num 5)
      ⟨Json.null, Json.null, Json.null, Json.null,
       Json.num 5, Json.null, Json.null, Json.null⟩ rfl rfl rfl (by rfl)

/-- Claim C6: for every successful run of `fetch_tiktok_data`, the returned
record has `has_transcript` equal to transcript-present AND
transcript-text-non-empty; in particular a run whose transcript value is
absent yields `has_transcript = false` (a present transcript with empty
text cannot be produced by `_fetch_transcript`, whose guard only builds a
transcript from truthy text). -/
theorem has_transcript_matches_text
    (uo : Except PyExc (String × Option String)) (mOut tOut : FetchOutcome)
    (d : TikTokData) (t : Option TikTokTranscript)
    (hf : fetch_tiktok_data uo mOut tOut = Except.ok d)
    (ht : fetchTranscript tOut = Except.ok t) :
    d.has_transcript = transcriptPresentNonempty t := by
  obtain ⟨ru, vid, md, t2, -, -, ht2, rfl⟩ := fetch_ok_cases hf
  rw [ht] at ht2
  obtain rfl : t = t2 := by exact (Except.ok.injEq _ _).mp ht2
  cases t with
  | none => rfl
  | some tr =>
      have htr : tr.text.truthy = true := fetchTranscript_ok_some ht
      simp [assemble, transcriptPresentNonempty, htr, truthy_isNotNone htr]

/-- Witness for C6: a concrete successful run with a present transcript has
`has_transcript` equal to the predicate, which evaluates to true. -/
theorem has_transcript_matches_text_witness :
    fetch_tiktok_data (Except.ok ("u", none))
        (FetchOutcome.response ⟨200, "", Except.ok (Json.obj [])⟩)
        (FetchOutcome.response ⟨200, "",
          Except.ok (Json.obj [("text", Json.str "hi"), ("lang", Json.str "en")])⟩) =
      Except.ok (assemble "u" none
        ⟨Json.null, Json.null, Json.null, Json.null,
         Json.null, Json.null, Json.null, Json.null⟩
        (some ⟨Json.str "hi", Json.str "en"⟩)) ∧
    (assemble "u" none
        ⟨Json.null, Json.null, Json.null, Json.null,
         Json.null, Json.null, Json.null, Json.null⟩
        (some ⟨Json.str "hi", Json.str "en"⟩)).has_transcript =
      transcriptPresentNonempty (some ⟨Json.str "hi", Json.str "en"⟩) := by
  have h : fetch_tiktok_data (Except.ok ("u", none))
      (FetchOutcome.response ⟨200, "", Except.ok (Json.obj [])⟩)
      (FetchOutcome.response ⟨200, "",
        Except.ok (Json.obj [("text", Json.str "hi"), ("lang", Json.str "en")])⟩) =
      Except.ok (assemble "u" none
        ⟨Json.null, Json.null, Json.null, Json.null,
         Json.null, Json.null, Json.null, Json.null⟩
        (some ⟨Json.str "hi", Json.str "en"⟩)) := by rfl
  exact ⟨h, has_transcript_matches_text _ _ _ _ _ h (by rfl)⟩

/-- Claim C9: a transcript response with a 2xx status whose JSON object body
has no truthy value under either the text or the transcript key yields the
absence value `none`, exactly like the documented 404 case. -/
theorem transcript_empty_body_gives_none (r : HttpResponse) (d : List (String × Json))
    (h2l : 200 ≤ r.status) (h2u : r.status < 300)
    (hb : r.jsonBody = Except.ok (Json.obj d))
    (htext : ∀ v, d.lookup "text" = some v → v.truthy = false)
    (htrans : ∀ v, d.lookup "transcript" = some v → v.truthy = false) :
    fetchTranscript (FetchOutcome.response r) = Except.ok none := by
  have h404 : r.status ≠ 404 := by omega
  have h401 : r.status ≠ 401 := by omega
  have h402 : r.status ≠ 402 := by omega
  have h400 : ¬ 400 ≤ r.status := by omega
  have hfalsy : (pyOr (pyGet d "text") (pyGet d "transcript")).truthy = false := by
    have ht := pyGet_falsy htext
    have htr := pyGet_falsy htrans
    simp [pyOr, ht, htr]
  simp [fetchTranscript, h404, h401, h402, h400, hb, parseTranscriptBody, hfalsy]

/-- Witness for C9: a 200 response whose body has an empty text value and no
transcript key yields the absence value. -/
theorem transcript_empty_body_gives_none_witness :
    fetchTranscript (FetchOutcome.response
      ⟨200, "", Except.ok (Json.obj [("text", Json.str "")])⟩) = Except.ok none := by
  refine transcript_empty_body_gives_none
    ⟨200, "", Except.ok (Json.obj [("text", Json.str "")])⟩
    [("text", Json.str "")] (by decide) (by decide) rfl ?_ ?_
  · intro v hv
    simp [List.lookup] at hv
    rw [← hv]
    rfl
  · intro v hv
    simp [List.lookup] at hv

/-- Claim C10: invariant of every record returned by `fetch_tiktok_data` —
`has_transcript` is true exactly when the transcript field is non-null, and
a null transcript forces a null transcript_language. -/
theorem transcript_fields_consistent
    (uo : Except PyExc (String × Option String)) (mOut tOut : FetchOutcome)
    (d : TikTokData) (hf : fetch_tiktok_data uo mOut tOut = Except.ok d) :
    (d.has_transcript = true ↔ d.transcript ≠ Json.null) ∧
    (d.transcript = Json.null → d.transcript_language = Json.null) := by
  obtain ⟨ru, vid, md, t, -, -, ht, rfl⟩ := fetch_ok_cases hf
  cases t with
  | none => simp [assemble]
  | some tr =>
      have htr : tr.text.truthy = true := fetchTranscript_ok_some ht
      constructor
      · simp [assemble, truthy_isNotNone htr, truthy_ne_null htr]
      · intro hnull
        exact absurd hnull (by simpa [assemble] using truthy_ne_null htr)

/-- Witness for C10: the invariant evaluated on a concrete successful run
with a 404 transcript. -/
theorem transcript_fields_consistent_witness :
    fetch_tiktok_data (Except.ok ("u", none))
        (FetchOutcome.response ⟨200, "", Except.ok (Json.obj [])⟩)
        (FetchOutcome.response ⟨404, "", Except.ok Json.null⟩) =
      Except.ok (assemble "u" none
        ⟨Json.null, Json.null, Json.null, Json.null,
         Json.null, Json.null, Json.null, Json.null⟩ none) ∧
    (((assemble "u" none
        ⟨Json.null, Json.null, Json.null, Json.null,
         Json.null, Json.null, Json.null, Json.null⟩ none).has_transcript = true ↔
      (assemble "u" none
        ⟨Json.null, Json.null, Json.null, Json.null,
         Json.null, Json.null, Json.null, Json.null⟩ none).transcript ≠ Json.null) ∧
     ((assemble "u" none
        ⟨Json.null, Json.null, Json.null, Json.null,
         Json.null, Json.null, Json.null, Json.null⟩ none).transcript = Json.null →
      (assemble "u" none
        ⟨Json.null, Json.null, Json.null, Json.null,
         Json.null, Json.null, Json.null, Json.null⟩ none).transcript_language = Json.null)) := by
  have h : fetch_tiktok_data (Except.ok ("u", none))
      (FetchOutcome.response ⟨200, "", Except.ok (Json.obj [])⟩)
      (FetchOutcome.response ⟨404, "", Except.ok Json.null⟩) =
      Except.ok (assemble "u" none
        ⟨Json.null, Json.null, Json.null, Json.null,
         Json.null, Json.null, Json.null, Json.null⟩ none) := by rfl
  exact ⟨h, transcript_fields_consistent (Except.ok ("u", none))
    (FetchOutcome.response ⟨200, "", Except.ok (Json.obj [])⟩)
    (FetchOutcome.response ⟨404, "", Except.ok Json.null⟩) _ h⟩

namespace UrlNorm

theorem filter_tracking_idem (l : List (String × String)) :
    (l.filter (fun p => !(trackingParams.contains p.fst))).filter
      (fun p => !(trackingParams.contains p.fst)) =
    l.filter (fun p => !(trackingParams.contains p.fst)) := by
  simp [List.filter_filter]

theorem clean_ok_cases {u c : Url} (h : clean_tiktok_url u = Except.ok c) :
    acceptedHosts.contains u.host = true ∧
    c = { u with query := u.query.filter (fun p => !(trackingParams.contains p.fst)) } := by
  unfold clean_tiktok_url at h
  split at h
  · next hacc =>
      refine ⟨hacc, ?_⟩
      injection h with h2
      exact h2.symm
  · cases h

theorem normalize_ok_parts {net : Url → Option Url} {x : Url} {res : ResolvedURL}
    (hnet : NetCanonical net) (h : normalize net x = Except.ok res) :
    acceptedHosts.contains res.resolved.host = true ∧
    shortLinkHosts.contains res.resolved.host = false ∧
    res.resolved.query.filter (fun p => !(trackingParams.contains p.fst)) =
      res.resolved.query ∧
    extract_video_id res.resolved = Except.ok res.videoId := by
  unfold normalize at h
  cases hc : clean_tiktok_url x with
  | error e => rw [hc] at h; simp at h
  | ok c =>
      rw [hc] at h
      dsimp only at h
      cases hr : resolve_short_url net c with
      | error e => rw [hr] at h; simp at h
      | ok r =>
          rw [hr] at h
          dsimp only at h
          cases he : extract_video_id r with
          | error e => rw [he] at h; simp at h
          | ok vid =>
              rw [he] at h
              dsimp only at h
              injection h with h2
              subst h2
              obtain ⟨hcacc, hcq⟩ := clean_ok_cases hc
              have hrparts : acceptedHosts.contains r.host = true ∧
                  shortLinkHosts.contains r.host = false ∧
                  r.query.filter (fun p => !(trackingParams.contains p.fst)) = r.query := by
                unfold resolve_short_url at hr
                split at hr
                · cases hn : net c with
                  | none => rw [hn] at hr; simp at hr
                  | some v =>
                      rw [hn] at hr
                      injection hr with hvr
                      subst hvr
                      exact hnet c _ hn
                · next hnshort =>
                    injection hr with hcr
                    subst hcr
                    subst hcq
                    refine ⟨hcacc, ?_, filter_tracking_idem x.query⟩
                    simpa using hnshort
              exact ⟨hrparts.1, hrparts.2.1, hrparts.2.2, he⟩

/-- Claim C7 (spec-modelled, the URL utilities are outside the provided
sources): normalization is idempotent — re-running the
clean / resolve / extract pipeline on the resolved URL of any successful
normalization reproduces that ResolvedURL exactly (its raw, cleaned and
resolved components all coincide with the already-resolved URL, and the
video id is unchanged), provided the redirect resolver lands on canonical
long-form URLs, which is what the spec requires of step 2. -/
theorem normalize_idempotent (net : Url → Option Url) (x : Url) (res : ResolvedURL)
    (hnet : NetCanonical net) (h : normalize net x = Except.ok res) :
    normalize net res.resolved =
      Except.ok { raw := res.resolved, cleaned := res.resolved,
                  resolved := res.resolved, videoId := res.videoId } := by
  obtain ⟨hacc, hshort, hfilter, hvid⟩ := normalize_ok_parts hnet h
  have hclean : clean_tiktok_url res.resolved = Except.ok res.resolved := by
    unfold clean_tiktok_url
    rw [if_pos hacc, hfilter]
  have hres : resolve_short_url net res.resolved = Except.ok res.resolved := by
    have hne : ¬ shortLinkHosts.contains res.resolved.host = true := by
      rw [hshort]; simp
    unfold resolve_short_url
    rw [if_neg hne]
  simp [normalize, hclean, hres, hvid]

/-- Witness for C7: the concrete resolver `netEx` is canonical; normalizing
the short link gives the canonical ResolvedURL, and normalizing its
resolved component (the canonical long-form URL) reproduces it. -/
theorem normalize_idempotent_witness :
    NetCanonical netEx ∧
    normalize netEx shortEx =
      Except.ok { raw := shortEx,
                  cleaned := { host := "vt.tiktok.com", path := ["ABC123"], query := [] },
                  resolved := canonEx, videoId := "7000000000000000000" } ∧
    normalize netEx canonEx =
      Except.ok { raw := canonEx, cleaned := canonEx,
                  resolved := canonEx, videoId := "7000000000000000000" } := by
  have hnet : NetCanonical netEx := by
    intro u v hv
    injection hv with h2
    subst h2
    exact ⟨by decide, by decide, rfl⟩
  have h1 : normalize netEx shortEx =
      Except.ok { raw := shortEx,
                  cleaned := { host := "vt.tiktok.com", path := ["ABC123"], query := [] },
                  resolved := canonEx, videoId := "7000000000000000000" } := by rfl
  exact ⟨hnet, h1, normalize_idempotent netEx shortEx _ hnet h1⟩

end UrlNorm

end Avocado
